import Mathlib

/-!
Verification development for the HealthNova backend.

Shallow embedding of the state-machine and authorization logic of the
backend routes: the Visit ledger (doctor routes and the medical-history
helpers), the LabTest workflow (lab routes), the Appointment / meeting
lifecycle (video routes) and the WebRTC signaling relay
(video_consultation).  Every definition mirrors the corresponding Python
function; HTTP handlers become pure functions returning the response
status code together with the persisted entity state.  Optional text
fields that the Python code tests for truthiness (`None` and `""` behave
identically there) are modelled as `String` with `""` standing for the
absent value; optional request-body keys are modelled as `Option`.
-/

namespace HealthNova

/-- Python truthiness of an optional request field: the key is present and
its value is a non-empty string. -/
def truthy : Option String → Bool
  | none => false
  | some s => ¬ (s = "")

/-! ## Data model (models.py) -/

/-- Prescription row (models.py, class Prescription): immutable once
created, belongs to one Visit. -/
structure Prescription where
  medication_name : String
  dosage : String
  frequency : String
  duration : String
  instructions : Option String
deriving Repr, DecidableEq

/-- LabTest row (models.py, class LabTest): `lab_id` is nullable and
`status` defaults to "requested"; `scheduled_time` is a nullable
datetime, modelled as an integer instant. -/
structure LabTest where
  test_name : String
  test_type : Option String
  instructions : Option String
  lab_id : Option Nat
  status : String
  scheduled_time : Option Int
  result : Option String
  remarks : Option String
deriving Repr, DecidableEq

/-- Visit row (models.py, class Visit) restricted to the fields the doctor
endpoints read or write, together with its prescription and lab-test
child collections. -/
structure Visit where
  doctor_id : Option Nat
  symptoms : String
  diagnosis : String
  notes : String
  severity : Option String
  status : String
  completed_at : Option Nat
  prescriptions : List Prescription
  lab_tests : List LabTest
deriving Repr, DecidableEq

/-! ## Doctor request payloads (doctor/routes.py request bodies) -/

/-- One prescription object inside a request body; each key may be
absent. -/
structure RxData where
  medication_name : Option String
  dosage : Option String
  frequency : Option String
  duration : Option String
  instructions : Option String
deriving Repr, DecidableEq

/-- One lab-test object inside a request body. -/
structure TestData where
  test_name : Option String
  test_type : Option String
  instructions : Option String
deriving Repr, DecidableEq

/-- Body of PUT /doctor/visits/id/diagnose; `none` means the key is
absent (or, for the lists, not a list). -/
structure DiagnoseData where
  diagnosis : Option String
  notes : Option String
  severity : Option String
  status : Option String
  prescriptions : Option (List RxData)
  lab_tests : Option (List TestData)
deriving Repr, DecidableEq

/-- `data.get(key)` absent / `None` maps to `""` when the code stores the
value of a key it only checked for presence. -/
def getStr (o : Option String) : String := o.getD ""

/-- diagnose_visit keeps a prescription object only when all four
required keys are present (doctor/routes.py line 243: presence, not
truthiness). -/
def rxComplete (r : RxData) : Bool :=
  r.medication_name.isSome && r.dosage.isSome && r.frequency.isSome && r.duration.isSome

/-- Build the Prescription row from a request object
(doctor/routes.py lines 244-251). -/
def mkPrescription (r : RxData) : Prescription :=
  { medication_name := getStr r.medication_name
    dosage := getStr r.dosage
    frequency := getStr r.frequency
    duration := getStr r.duration
    instructions := r.instructions }

/-- Build a LabTest row from a request object: status "requested", no
assigned lab (doctor/routes.py lines 258-264 and 361-367). -/
def mkLabTest (t : TestData) : LabTest :=
  { test_name := getStr t.test_name
    test_type := t.test_type
    instructions := t.instructions
    lab_id := none
    status := "requested"
    scheduled_time := none
    result := none
    remarks := none }

/-- Severity whitelist in diagnose_visit (doctor/routes.py line 227). -/
def severityAllowed (s : String) : Bool :=
  s = "low" || s = "medium" || s = "high" || s = "critical"

/-- Status whitelist in diagnose_visit (doctor/routes.py line 231). -/
def statusAllowed (s : String) : Bool :=
  s = "open" || s = "in_progress" || s = "completed"

/-- The append step of diagnose_visit for the diagnosis and notes fields
(doctor/routes.py lines 213-225): a truthy submitted value is stored
directly when the field is empty and otherwise appended behind a
newline-newline-[timestamp] marker. -/
def appendField (ts cur : String) (d : Option String) : String :=
  match d with
  | none => cur
  | some s =>
    if s = "" then cur
    else if cur = "" then s
    else cur ++ "\n\n[" ++ ts ++ "] " ++ s

/-- PUT /doctor/visits/id/diagnose (doctor/routes.py, diagnose_visit).
`ts` is the formatted utcnow string used in the append markers and `now`
the instant stored into completed_at.  Returns the HTTP status code and
the persisted Visit. -/
def diagnoseVisit (ts : String) (now : Nat) (doctorId : Nat) (v : Visit)
    (d : DiagnoseData) : Nat × Visit :=
  if v.doctor_id ≠ some doctorId then (404, v)
  else if v.status = "completed" then (403, v)
  else
    let v1 := { v with diagnosis := appendField ts v.diagnosis d.diagnosis }
    let v2 := { v1 with notes := appendField ts v1.notes d.notes }
    let v3 := match d.severity with
      | some s => if severityAllowed s then { v2 with severity := some s } else v2
      | none => v2
    let v4 := match d.status with
      | some s =>
        if statusAllowed s then
          if s = "completed" then { v3 with status := s, completed_at := some now }
          else { v3 with status := s }
        else v3
      | none => v3
    let v5 := match d.prescriptions with
      | some rxs =>
        { v4 with prescriptions := v4.prescriptions ++ (rxs.filter rxComplete).map mkPrescription }
      | none => v4
    let v6 := match d.lab_tests with
      | some tds =>
        { v5 with lab_tests :=
            v5.lab_tests ++ (tds.filter (fun t => t.test_name.isSome)).map mkLabTest }
      | none => v5
    (200, v6)

/-- POST /doctor/visits/id/prescriptions (doctor/routes.py,
add_prescription): ownership lookup, then the four required fields must
be present and truthy, then the prescription row is appended.  There is
no check of the visit's status. -/
def addPrescription (doctorId : Nat) (v : Visit) (r : RxData) : Nat × Visit :=
  if v.doctor_id ≠ some doctorId then (404, v)
  else if truthy r.medication_name && truthy r.dosage &&
          truthy r.frequency && truthy r.duration then
    (201, { v with prescriptions := v.prescriptions ++ [mkPrescription r] })
  else (400, v)

/-- POST /doctor/visits/id/lab-tests (doctor/routes.py,
request_lab_test): ownership lookup, truthy test_name required, then the
lab-test row is appended.  There is no check of the visit's status. -/
def requestLabTest (doctorId : Nat) (v : Visit) (t : TestData) : Nat × Visit :=
  if v.doctor_id ≠ some doctorId then (404, v)
  else if truthy t.test_name then
    (201, { v with lab_tests := v.lab_tests ++ [mkLabTest t] })
  else (400, v)

/-- POST /doctor/visits/id/complete (doctor/routes.py, complete_visit):
ownership lookup, then unconditionally sets status "completed" and
stamps completed_at with the current time. -/
def completeVisit (now : Nat) (doctorId : Nat) (v : Visit) : Nat × Visit :=
  if v.doctor_id ≠ some doctorId then (404, v)
  else (200, { v with status := "completed", completed_at := some now })

/-! ## Medical-history helper (utils/medical_history.py) -/

/-- The append step of add_doctor_notes (utils/medical_history.py lines
209-221): unlike diagnose_visit, even the first write is prefixed with a
"[timestamp]" newline marker. -/
def appendFieldHist (ts cur : String) (d : Option String) : String :=
  match d with
  | none => cur
  | some s =>
    if s = "" then cur
    else if cur = "" then "[" ++ ts ++ "]\n" ++ s
    else cur ++ "\n\n[" ++ ts ++ "]\n" ++ s

/-- add_doctor_notes (utils/medical_history.py): raises ValueError when
the visit is not owned by the doctor or is completed, otherwise appends
the diagnosis and notes texts. -/
def addDoctorNotes (ts : String) (doctorId : Nat) (v : Visit)
    (diagnosis notes : Option String) : Except String Visit :=
  if v.doctor_id ≠ some doctorId then .error "Visit not found or access denied"
  else if v.status = "completed" then
    .error "Cannot modify completed visit - history is append-only"
  else .ok { v with diagnosis := appendFieldHist ts v.diagnosis diagnosis
                    notes := appendFieldHist ts v.notes notes }

/-- The read path: visit.to_dict restricted to the text fields, a pure
projection of the stored Visit (models.py, Visit.to_dict). -/
def visitToDict (v : Visit) : List (String × String) :=
  [("symptoms", v.symptoms), ("diagnosis", v.diagnosis), ("notes", v.notes),
   ("severity", v.severity.getD ""), ("status", v.status)]

/-! ## Lab workflow (lab/routes.py)

Each handler operates on an existing LabTest row; the 404 branch for an
id that matches no row at all is outside the entity-level model, but the
404 returned when the `filter_by(id, lab_id=lab_id)` lookup finds no row
because the caller is not the assigned lab is modelled faithfully. -/

/-- POST /lab/tests/id/approve (lab/routes.py, approve_test): only a
"requested" test can be approved; approval assigns the caller as the
test's lab and sets status "approved". -/
def approveTest (labId : Nat) (t : LabTest) : Nat × LabTest :=
  if t.status ≠ "requested" then (400, t)
  else (200, { t with lab_id := some labId, status := "approved" })

/-- POST /lab/tests/id/reject (lab/routes.py, reject_test): only a
"requested" test can be rejected; stores the remark (default "Rejected
by lab").  The caller's id is not written anywhere. -/
def rejectTest (remarks : Option String) (t : LabTest) : Nat × LabTest :=
  if t.status ≠ "requested" then (400, t)
  else (200, { t with status := "rejected", remarks := some (remarks.getD "Rejected by lab") })

/-- POST /lab/tests/id/schedule (lab/routes.py, schedule_test).  The
`scheduled_time` argument reflects the request body and the
datetime.fromisoformat parse: `none` when the key is missing or falsy,
`some none` when the string does not parse (ValueError), `some (some n)`
when it parses to the instant `n`.  The handler never compares the
parsed instant with the current time. -/
def scheduleTest (labId : Nat) (t : LabTest) (scheduled_time : Option (Option Int)) :
    Nat × LabTest :=
  if t.lab_id ≠ some labId then (404, t)
  else if t.status ≠ "approved" then (400, t)
  else
    match scheduled_time with
    | none => (400, t)
    | some none => (400, t)
    | some (some n) => (200, { t with scheduled_time := some n, status := "scheduled" })

/-- Body of PUT /lab/tests/id/update. -/
structure UpdateData where
  result : Option String
  remarks : Option String
  status : Option String
deriving Repr, DecidableEq

/-- PUT /lab/tests/id/update (lab/routes.py, update_test_result): only
the assigned lab; result/remarks stored when present; an explicit status
change is restricted to "scheduled" or "completed", any other value
returns 400 before the commit, so nothing is persisted in that case. -/
def updateTestResult (labId : Nat) (t : LabTest) (d : UpdateData) : Nat × LabTest :=
  if t.lab_id ≠ some labId then (404, t)
  else
    let t1 := match d.result with
      | some r => { t with result := some r }
      | none => t
    let t2 := match d.remarks with
      | some r => { t1 with remarks := some r }
      | none => t1
    match d.status with
    | some s =>
      if s = "scheduled" || s = "completed" then (200, { t2 with status := s })
      else (400, t)
    | none => (200, t2)

/-- POST /lab/tests/id/complete (lab/routes.py, complete_test): only the
assigned lab; unconditionally sets status "completed". -/
def completeTest (labId : Nat) (t : LabTest) : Nat × LabTest :=
  if t.lab_id ≠ some labId then (404, t)
  else (200, { t with status := "completed" })

/-- One request to any of the five mutating lab endpoints, as a step
relation on the persisted LabTest row. -/
inductive LabStep : LabTest → LabTest → Prop where
  | approve (labId : Nat) (t : LabTest) : LabStep t (approveTest labId t).2
  | reject (r : Option String) (t : LabTest) : LabStep t (rejectTest r t).2
  | schedule (labId : Nat) (st : Option (Option Int)) (t : LabTest) :
      LabStep t (scheduleTest labId t st).2
  | update (labId : Nat) (d : UpdateData) (t : LabTest) :
      LabStep t (updateTestResult labId t d).2
  | complete (labId : Nat) (t : LabTest) : LabStep t (completeTest labId t).2

/-- A LabTest state reachable through the lab endpoints from a freshly
created request (every creation site builds the row with status
"requested" and no lab_id). -/
inductive LabReachable : LabTest → Prop where
  | init (t : TestData) : LabReachable (mkLabTest t)
  | step {t t' : LabTest} : LabReachable t → LabStep t t' → LabReachable t'

/-! ## Appointment / meeting lifecycle (video/routes.py) -/

/-- Appointment row (models.py, class Appointment) restricted to the
fields the video routes read or write. -/
structure Appointment where
  patient_id : Nat
  doctor_id : Nat
  status : String
  meeting_status : String
  meeting_started_at : Option Nat
  meeting_ended_at : Option Nat
deriving Repr, DecidableEq

/-- A freshly created appointment: every creation site (video routes,
patient routes) sets status "scheduled" and meeting_status
"not_started". -/
def mkAppointment (patientId doctorId : Nat) : Appointment :=
  { patient_id := patientId
    doctor_id := doctorId
    status := "scheduled"
    meeting_status := "not_started"
    meeting_started_at := none
    meeting_ended_at := none }

/-- POST /video/start-meeting/id (video/routes.py, start_meeting):
role_required('doctor') rejects any non-doctor session with 403; a
doctor who is not the assigned doctor gets 403; a cancelled or completed
appointment is blocked with 400; an already live meeting returns 200
without re-transition; otherwise meeting_status becomes "live" and
meeting_started_at is stamped. -/
def startMeeting (callerId : Nat) (callerRole : String) (now : Nat)
    (a : Appointment) : Nat × Appointment :=
  if callerRole ≠ "doctor" then (403, a)
  else if a.doctor_id ≠ callerId then (403, a)
  else if a.status = "cancelled" ∨ a.status = "completed" then (400, a)
  else if a.meeting_status = "live" then (200, a)
  else (200, { a with meeting_status := "live", meeting_started_at := some now })

/-- POST /video/end-meeting/id (video/routes.py, end_meeting): same
role and ownership gates; rejected with 400 unless the meeting is
currently live; on success stamps meeting_ended_at, sets meeting_status
"ended" and appointment status "completed". -/
def endMeeting (callerId : Nat) (callerRole : String) (now : Nat)
    (a : Appointment) : Nat × Appointment :=
  if callerRole ≠ "doctor" then (403, a)
  else if a.doctor_id ≠ callerId then (403, a)
  else if a.meeting_status ≠ "live" then (400, a)
  else (200, { a with meeting_status := "ended", meeting_ended_at := some now,
                      status := "completed" })

/-- One start-meeting or end-meeting request, by an arbitrary session. -/
inductive MeetStep : Appointment → Appointment → Prop where
  | start (c : Nat) (r : String) (now : Nat) (a : Appointment) :
      MeetStep a (startMeeting c r now a).2
  | finish (c : Nat) (r : String) (now : Nat) (a : Appointment) :
      MeetStep a (endMeeting c r now a).2

/-- Appointment states reachable from creation through any sequence of
start-meeting / end-meeting requests. -/
inductive MeetReachable : Appointment → Prop where
  | init (p d : Nat) : MeetReachable (mkAppointment p d)
  | step {a a' : Appointment} : MeetReachable a → MeetStep a a' → MeetReachable a'

/-- Position of a meeting_status value in the forward direction
not_started → live → ended. -/
def meetRank (s : String) : Nat :=
  if s = "not_started" then 0 else if s = "live" then 1 else 2

/-! ## Signaling relay (video_consultation.py) -/

/-- The in-memory active_rooms dict: room name to the list of connected
session ids, in join order. -/
abbrev Rooms := List (String × List Nat)

/-- `room_id in active_rooms` / `active_rooms[room_id]`. -/
def lookupRoom (rooms : Rooms) (roomId : String) : Option (List Nat) :=
  match rooms.find? (fun e => e.1 = roomId) with
  | some e => some e.2
  | none => none

/-- `active_rooms[room_id] = []` when the key is absent
(video_consultation.py lines 79-80). -/
def ensureRoom (rooms : Rooms) (roomId : String) : Rooms :=
  match lookupRoom rooms roomId with
  | some _ => rooms
  | none => rooms ++ [(roomId, [])]

/-- In-place overwrite of one room's member list. -/
def setRoom (rooms : Rooms) (roomId : String) (l : List Nat) : Rooms :=
  rooms.map (fun e => if e.1 = roomId then (e.1, l) else e)

/-- Outcome emitted to the joining client. -/
inductive JoinOutcome where
  | errorNoRoom
  | errorFull
  | joined
deriving Repr, DecidableEq

/-- join_room handler (video_consultation.py, handle_join_room): a falsy
room id is an error; the room entry is created when absent; a room that
already holds two participants answers with an error event and is left
unchanged; otherwise the caller's sid is appended. -/
def joinRoom (sid : Nat) (roomId : String) (rooms : Rooms) : JoinOutcome × Rooms :=
  if roomId = "" then (.errorNoRoom, rooms)
  else
    let rooms1 := ensureRoom rooms roomId
    let cur := (lookupRoom rooms1 roomId).getD []
    if 2 ≤ cur.length then (.errorFull, rooms1)
    else (.joined, setRoom rooms1 roomId (cur ++ [sid]))

/-- leave_room handler (video_consultation.py, handle_leave_room):
removes the caller's sid from the named room when present, deleting the
room entry if it became empty. -/
def leaveRoom (sid : Nat) (roomId : String) (rooms : Rooms) : Rooms :=
  if roomId = "" then rooms
  else
    match lookupRoom rooms roomId with
    | none => rooms
    | some l =>
      if sid ∈ l then
        let l' := l.erase sid
        if l'.length = 0 then rooms.filter (fun e => ¬ (e.1 = roomId))
        else setRoom rooms roomId l'
      else rooms

/-- disconnect handler (video_consultation.py, handle_disconnect):
removes the sid from every room holding it, deleting rooms that became
empty. -/
def disconnectPeer (sid : Nat) (rooms : Rooms) : Rooms :=
  rooms.filterMap (fun e =>
    if sid ∈ e.2 then
      let l := e.2.erase sid
      if l.length = 0 then none else some (e.1, l)
    else some e)

/-- One connection event processed by the relay. -/
inductive RelayStep : Rooms → Rooms → Prop where
  | join (sid : Nat) (roomId : String) (r : Rooms) : RelayStep r (joinRoom sid roomId r).2
  | leave (sid : Nat) (roomId : String) (r : Rooms) : RelayStep r (leaveRoom sid roomId r)
  | disconnect (sid : Nat) (r : Rooms) : RelayStep r (disconnectPeer sid r)

/-- Room states reachable from the empty map under sequential event
processing. -/
inductive RelayReachable : Rooms → Prop where
  | init : RelayReachable []
  | step {r r' : Rooms} : RelayReachable r → RelayStep r r' → RelayReachable r'

/-! ## Concrete example entities used by witnesses and counterexamples -/

/-- A completed Visit assigned to doctor 1, with completed_at stamped at
instant 5 and empty child collections. -/
def exCompletedVisit : Visit :=
  { doctor_id := some 1, symptoms := "fever 3 days", diagnosis := "", notes := "",
    severity := some "medium", status := "completed", completed_at := some 5,
    prescriptions := [], lab_tests := [] }

/-- An open Visit assigned to doctor 1 with empty diagnosis and notes. -/
def exOpenVisit : Visit :=
  { doctor_id := some 1, symptoms := "fever 3 days", diagnosis := "", notes := "",
    severity := some "medium", status := "open", completed_at := none,
    prescriptions := [], lab_tests := [] }

/-- An in-progress Visit assigned to doctor 1. -/
def exInProgressVisit : Visit :=
  { exOpenVisit with status := "in_progress" }

/-- A fully populated prescription request object. -/
def exRxData : RxData :=
  { medication_name := some "Paracetamol", dosage := some "500mg",
    frequency := some "2x daily", duration := some "5 days", instructions := none }

/-- A lab-test request object. -/
def exTestData : TestData :=
  { test_name := some "CBC", test_type := none, instructions := none }

/-- A diagnose request body touching every field. -/
def exDiagnoseData : DiagnoseData :=
  { diagnosis := some "viral fever", notes := some "rest", severity := some "low",
    status := some "open", prescriptions := some [exRxData], lab_tests := some [exTestData] }

/-- A diagnose request body carrying only a diagnosis text. -/
def diagnosisOnlyData (txt : String) : DiagnoseData :=
  { diagnosis := some txt, notes := none, severity := none, status := none,
    prescriptions := none, lab_tests := none }

/-- A diagnose request body carrying only a status value. -/
def statusOnlyData (s : String) : DiagnoseData :=
  { diagnosis := none, notes := none, severity := none, status := some s,
    prescriptions := none, lab_tests := none }

/-- The lab test of exTestData after approval by lab 1. -/
def exApprovedTest : LabTest := (approveTest 1 (mkLabTest exTestData)).2

/-- An appointment between patient 1 and doctor 2 whose meeting the
doctor has started at instant 5. -/
def exLiveAppointment : Appointment :=
  (startMeeting 2 "doctor" 5 (mkAppointment 1 2)).2

/-- A signaling-room map holding one room "r" with the two peers 10 and
11, built by two join events from the empty map. -/
def exFullRooms : Rooms := (joinRoom 11 "r" (joinRoom 10 "r" []).2).2

/-! ## Invariants -/

/-- Lab-workflow invariant: while a test is unassigned ("requested" or
"rejected") it has no assigned lab. -/
def LabInv (t : LabTest) : Prop :=
  (t.status = "requested" ∨ t.status = "rejected") → t.lab_id = none

/-- Meeting-lifecycle invariant coupling the business status with the
meeting flag: an ended meeting has completed the appointment, any other
meeting state coexists only with status "scheduled" and a meeting flag
in the three-value set. -/
def MeetInv (a : Appointment) : Prop :=
  (a.meeting_status = "ended" → a.status = "completed") ∧
  (a.meeting_status ≠ "ended" →
    a.status = "scheduled" ∧
    (a.meeting_status = "not_started" ∨ a.meeting_status = "live"))

/-- Relay invariant: every room holds at most two peers and has a
non-empty name. -/
def RelayInv (rooms : Rooms) : Prop :=
  ∀ e ∈ rooms, e.2.length ≤ 2 ∧ e.1 ≠ ""

/-! ## Invariant preservation lemmas -/

lemma labInv_of_status {t' : LabTest} (s : String) (hst : t'.status = s)
    (h1 : s ≠ "requested") (h2 : s ≠ "rejected") : LabInv t' := by
  rintro (h' | h')
  · exact absurd (hst ▸ h') h1
  · exact absurd (hst ▸ h') h2

lemma labInv_status_set {t t' : LabTest} (ht : LabInv t) (hlab : t'.lab_id = t.lab_id)
    (hst : t'.status = t.status) : LabInv t' := by
  intro h'
  rw [hlab]
  exact ht (by rw [← hst]; exact h')

lemma labInv_approve (labId : Nat) (t : LabTest) (ht : LabInv t) :
    LabInv (approveTest labId t).2 := by
  simp only [approveTest]
  by_cases h : t.status = "requested"
  · rw [if_neg (by simp [h])]
    exact labInv_of_status "approved" rfl (by decide) (by decide)
  · rw [if_pos h]
    exact ht

lemma labInv_reject (r : Option String) (t : LabTest) (ht : LabInv t) :
    LabInv (rejectTest r t).2 := by
  simp only [rejectTest]
  by_cases h : t.status = "requested"
  · rw [if_neg (by simp [h])]
    intro _
    exact ht (Or.inl h)
  · rw [if_pos h]
    exact ht

lemma labInv_schedule (labId : Nat) (st : Option (Option Int)) (t : LabTest)
    (ht : LabInv t) : LabInv (scheduleTest labId t st).2 := by
  simp only [scheduleTest]
  by_cases h1 : t.lab_id = some labId
  · rw [if_neg (by simp [h1])]
    by_cases h2 : t.status = "approved"
    · rw [if_neg (by simp [h2])]
      obtain _ | ⟨_ | n⟩ := st
      · exact ht
      · exact ht
      · exact labInv_of_status "scheduled" rfl (by decide) (by decide)
    · rw [if_pos h2]
      exact ht
  · rw [if_pos h1]
    exact ht

lemma labInv_update (labId : Nat) (d : UpdateData) (t : LabTest) (ht : LabInv t) :
    LabInv (updateTestResult labId t d).2 := by
  by_cases h1 : t.lab_id = some labId
  case neg =>
    simp only [updateTestResult]
    rw [if_pos h1]
    exact ht
  case pos =>
    simp only [updateTestResult]
    rw [if_neg (by simp [h1])]
    obtain ⟨dr, dm, ds⟩ := d
    have hcore : ∀ t2c : LabTest, t2c.lab_id = t.lab_id → t2c.status = t.status →
        LabInv (match ds with
          | some s =>
            if s = "scheduled" || s = "completed" then ((200 : Nat), { t2c with status := s })
            else (400, t)
          | none => ((200 : Nat), t2c)).2 := by
      intro t2c hlab hst
      cases ds with
      | none => exact labInv_status_set ht hlab hst
      | some s =>
        show LabInv (if s = "scheduled" || s = "completed"
            then ((200 : Nat), { t2c with status := s }) else (400, t)).2
        by_cases hall : (s = "scheduled" || s = "completed") = true
        · rw [if_pos hall]
          have hsc : s = "scheduled" ∨ s = "completed" := by simpa using hall
          rcases hsc with h | h
          · subst h
            exact labInv_of_status "scheduled" rfl (by decide) (by decide)
          · subst h
            exact labInv_of_status "completed" rfl (by decide) (by decide)
        · rw [if_neg hall]
          exact ht
    cases dr with
    | none =>
      cases dm with
      | none => exact hcore t rfl rfl
      | some r2 => exact hcore { t with remarks := some r2 } rfl rfl
    | some r1 =>
      cases dm with
      | none => exact hcore { t with result := some r1 } rfl rfl
      | some r2 => exact hcore { t with result := some r1, remarks := some r2 } rfl rfl

lemma labInv_complete (labId : Nat) (t : LabTest) (ht : LabInv t) :
    LabInv (completeTest labId t).2 := by
  simp only [completeTest]
  by_cases h1 : t.lab_id = some labId
  · rw [if_neg (by simp [h1])]
    exact labInv_of_status "completed" rfl (by decide) (by decide)
  · rw [if_pos h1]
    exact ht

lemma labInv_reachable {t : LabTest} (h : LabReachable t) : LabInv t := by
  induction h with
  | init td => intro _; rfl
  | step _ hs ih =>
    cases hs with
    | approve labId t => exact labInv_approve _ _ ih
    | reject r t => exact labInv_reject _ _ ih
    | schedule labId st t => exact labInv_schedule _ _ _ ih
    | update labId d t => exact labInv_update _ _ _ ih
    | complete labId t => exact labInv_complete _ _ ih

/-! ## Claim theorems -/

/-- Claim C1, counterexample: on a Visit whose status is "completed" the
standalone doctor prescription endpoint succeeds with 201 and appends a
prescription row — it neither fails with an invalid-state error nor
leaves the Visit's collections unchanged. -/
theorem completed_visit_prescription_not_blocked :
    exCompletedVisit.status = "completed" ∧
    exCompletedVisit.prescriptions = [] ∧
    (addPrescription 1 exCompletedVisit exRxData).1 = 201 ∧
    (addPrescription 1 exCompletedVisit exRxData).2.prescriptions =
      [mkPrescription exRxData] :=
  ⟨rfl, rfl, rfl, rfl⟩

/-- Claim C1, corrected.  Once a Visit is completed: the diagnose
endpoint fails (403, not 200) and returns the Visit unchanged, and the
medical-history notes helper raises instead of returning a visit; but
the standalone prescription and lab-test endpoints perform no status
check — called by the assigned doctor with valid data they succeed with
201 and append a child row to the completed Visit. -/
theorem completed_visit_write_boundary (ts : String) (now doctorId : Nat) (v : Visit)
    (d : DiagnoseData) (dg nt : Option String) (r : RxData) (td : TestData)
    (hc : v.status = "completed") :
    (diagnoseVisit ts now doctorId v d).1 ≠ 200 ∧
    (diagnoseVisit ts now doctorId v d).2 = v ∧
    (∀ v', addDoctorNotes ts doctorId v dg nt ≠ .ok v') ∧
    (v.doctor_id = some doctorId →
      truthy r.medication_name = true → truthy r.dosage = true →
      truthy r.frequency = true → truthy r.duration = true →
      addPrescription doctorId v r =
        (201, { v with prescriptions := v.prescriptions ++ [mkPrescription r] })) ∧
    (v.doctor_id = some doctorId → truthy td.test_name = true →
      requestLabTest doctorId v td =
        (201, { v with lab_tests := v.lab_tests ++ [mkLabTest td] })) := by
  have hmain : (diagnoseVisit ts now doctorId v d).1 ≠ 200 ∧
      (diagnoseVisit ts now doctorId v d).2 = v := by
    simp only [diagnoseVisit]
    by_cases hown : v.doctor_id = some doctorId
    · rw [if_neg (by simp [hown]), if_pos hc]
      exact ⟨by simp, rfl⟩
    · rw [if_pos (by simp [hown])]
      exact ⟨by simp, rfl⟩
  refine ⟨hmain.1, hmain.2, ?_, ?_, ?_⟩
  · intro v'
    simp only [addDoctorNotes]
    by_cases hown : v.doctor_id = some doctorId
    · rw [if_neg (by simp [hown]), if_pos hc]
      simp
    · rw [if_pos (by simp [hown])]
      simp
  · intro hown h1 h2 h3 h4
    unfold addPrescription
    rw [if_neg (by simp [hown]), if_pos (by simp [h1, h2, h3, h4])]
  · intro hown h1
    unfold requestLabTest
    rw [if_neg (by simp [hown]), if_pos h1]

/-- Witness for completed_visit_write_boundary at a concrete completed
Visit. -/
theorem completed_visit_write_boundary_witness :
    (diagnoseVisit "2025-01-01 00:00" 9 1 exCompletedVisit exDiagnoseData).2 =
      exCompletedVisit :=
  (completed_visit_write_boundary "2025-01-01 00:00" 9 1 exCompletedVisit exDiagnoseData
      (some "x") none exRxData exTestData rfl).2.1

/-- Claim C2, counterexample: the medical-history notes helper prefixes
even the first diagnosis write with a "[timestamp]" marker, so the
stored value is not the submitted text. -/
theorem first_write_marker_in_history_helper :
    exOpenVisit.diagnosis = "" ∧
    addDoctorNotes "2025-01-01 00:00 UTC" 1 exOpenVisit (some "abc") none =
      .ok { exOpenVisit with diagnosis := "[2025-01-01 00:00 UTC]\nabc" } ∧
    ¬ ("[2025-01-01 00:00 UTC]\nabc" = "abc") :=
  ⟨rfl, rfl, by decide⟩

/-- Claim C2, corrected.  Via the diagnose endpoint a first diagnosis
write on a non-completed Visit stores exactly the submitted text and a
second write appends the new text behind a "[timestamp]" marker,
keeping the old value as a prefix and both texts in order; via the
medical-history helper the append behaves the same but even the first
write carries a "[timestamp]" marker; reading is a pure projection, so
two reads without writes agree. -/
theorem diagnosis_append_semantics (ts : String) (now doctorId : Nat) (v : Visit)
    (txt : String) (hnc : v.status ≠ "completed") (hown : v.doctor_id = some doctorId)
    (ht : txt ≠ "") :
    (v.diagnosis = "" →
      (diagnoseVisit ts now doctorId v (diagnosisOnlyData txt)).2.diagnosis = txt) ∧
    (v.diagnosis ≠ "" →
      (diagnoseVisit ts now doctorId v (diagnosisOnlyData txt)).2.diagnosis =
        v.diagnosis ++ "\n\n[" ++ ts ++ "] " ++ txt) ∧
    (v.diagnosis ≠ "" → ∃ mid,
      (diagnoseVisit ts now doctorId v (diagnosisOnlyData txt)).2.diagnosis =
        v.diagnosis ++ mid ++ txt) ∧
    (∀ v', addDoctorNotes ts doctorId v (some txt) none = .ok v' →
      (v.diagnosis = "" → v'.diagnosis = "[" ++ ts ++ "]\n" ++ txt) ∧
      (v.diagnosis ≠ "" →
        v'.diagnosis = v.diagnosis ++ "\n\n[" ++ ts ++ "]\n" ++ txt)) ∧
    visitToDict v = visitToDict v := by
  have hgo : diagnoseVisit ts now doctorId v (diagnosisOnlyData txt) =
      (200, { v with diagnosis := appendField ts v.diagnosis (some txt) }) := by
    unfold diagnoseVisit
    rw [if_neg (by simp [hown]), if_neg hnc]
    rfl
  refine ⟨?_, ?_, ?_, ?_, rfl⟩
  · intro hd
    rw [hgo]
    simp [appendField, ht, hd]
  · intro hd
    rw [hgo]
    simp [appendField, ht, hd]
  · intro hd
    refine ⟨"\n\n[" ++ ts ++ "] ", ?_⟩
    rw [hgo]
    simp [appendField, ht, hd, String.append_assoc]
  · intro v' hv'
    unfold addDoctorNotes at hv'
    rw [if_neg (by simp [hown]), if_neg hnc] at hv'
    cases hv'
    constructor
    · intro hd
      simp [appendFieldHist, ht, hd]
    · intro hd
      simp [appendFieldHist, ht, hd]

/-- Witness for diagnosis_append_semantics: second write on a Visit whose
diagnosis already holds text. -/
theorem diagnosis_append_semantics_witness :
    (diagnoseVisit "T2" 9 1 { exOpenVisit with diagnosis := "first" }
        (diagnosisOnlyData "second")).2.diagnosis = "first" ++ "\n\n[" ++ "T2" ++ "] " ++ "second" :=
  (diagnosis_append_semantics "T2" 9 1 { exOpenVisit with diagnosis := "first" } "second"
      (by decide) rfl (by decide)).2.1 (by decide)

/-- Claim C4: approve succeeds exactly from status "requested", in which
case it assigns the approving lab's id and status "approved"; from any
other status it returns 400 with the test unchanged. -/
theorem approve_only_from_requested (labId : Nat) (t : LabTest) :
    (t.status = "requested" →
      approveTest labId t = (200, { t with lab_id := some labId, status := "approved" })) ∧
    (t.status ≠ "requested" → approveTest labId t = (400, t)) := by
  constructor
  · intro h
    unfold approveTest
    rw [if_neg (by simp [h])]
  · intro h
    unfold approveTest
    rw [if_pos h]

/-- Witness for approve_only_from_requested: a second lab's approval of
an already approved test is rejected with 400 and changes nothing. -/
theorem approve_only_from_requested_witness :
    approveTest 2 exApprovedTest = (400, exApprovedTest) :=
  (approve_only_from_requested 2 exApprovedTest).2 (by decide)

/-- Claim C7, counterexample: a completed Visit cannot be moved back to
"open" through the diagnose endpoint — the request is rejected with 403
before the status whitelist is ever consulted, and the status stays
"completed". -/
theorem completed_visit_not_reopenable :
    exCompletedVisit.status = "completed" ∧
    diagnoseVisit "ts" 9 1 exCompletedVisit (statusOnlyData "open") =
      (403, exCompletedVisit) ∧
    ¬ ((diagnoseVisit "ts" 9 1 exCompletedVisit (statusOnlyData "open")).2.status = "open") :=
  ⟨rfl, rfl, by decide⟩

/-- Claim C7, corrected.  For a non-completed Visit the diagnose endpoint
accepts any submitted status in the allowed set regardless of the
current value — no transition table is enforced, so backward moves such
as in_progress to open succeed; a completed Visit, however, is rejected
outright (403, unchanged), so completed-to-open is impossible through
this endpoint. -/
theorem status_update_unvalidated (ts : String) (now doctorId : Nat) (v : Visit)
    (s : String) (hown : v.doctor_id = some doctorId) (hs : statusAllowed s = true) :
    (v.status ≠ "completed" →
      (diagnoseVisit ts now doctorId v (statusOnlyData s)).1 = 200 ∧
      (diagnoseVisit ts now doctorId v (statusOnlyData s)).2.status = s) ∧
    (v.status = "completed" →
      diagnoseVisit ts now doctorId v (statusOnlyData s) = (403, v)) := by
  constructor
  · intro hnc
    have hgo : diagnoseVisit ts now doctorId v (statusOnlyData s) =
        (200, if s = "completed" then { v with status := s, completed_at := some now }
              else { v with status := s }) := by
      simp only [diagnoseVisit, statusOnlyData, appendField]
      rw [if_neg (by simp [hown]), if_neg hnc, if_pos hs]
    rw [hgo]
    by_cases hcs : s = "completed"
    · rw [if_pos hcs]; exact ⟨rfl, rfl⟩
    · rw [if_neg hcs]; exact ⟨rfl, rfl⟩
  · intro hc
    simp only [diagnoseVisit]
    rw [if_neg (by simp [hown]), if_pos hc]

/-- Witness for status_update_unvalidated: an in-progress Visit is moved
backward to "open". -/
theorem status_update_unvalidated_witness :
    (diagnoseVisit "ts" 9 1 exInProgressVisit (statusOnlyData "open")).1 = 200 ∧
    (diagnoseVisit "ts" 9 1 exInProgressVisit (statusOnlyData "open")).2.status = "open" :=
  (status_update_unvalidated "ts" 9 1 exInProgressVisit "open" rfl (by decide)).1 (by decide)

/-- Claim C8, counterexample: with the request arriving at instant 1, a
scheduled time at instant 0 — strictly in the past — is accepted and the
test becomes "scheduled": the handler never compares the parsed
timestamp with the current time. -/
theorem schedule_accepts_past_time :
    (scheduleTest 1 exApprovedTest (some (some 0))).1 = 200 ∧
    (scheduleTest 1 exApprovedTest (some (some 0))).2.status = "scheduled" ∧
    (scheduleTest 1 exApprovedTest (some (some 0))).2.scheduled_time = some 0 ∧
    ((0 : Int) < 1) :=
  ⟨rfl, rfl, rfl, by decide⟩

/-- Claim C8, corrected.  Schedule succeeds exactly when the caller is
the assigned lab, the status is "approved" and the scheduled_time field
is present and parses; on success the parsed instant is stored and the
status becomes "scheduled".  Whether the instant lies in the past plays
no role. -/
theorem schedule_requires_only_parse (labId : Nat) (t : LabTest)
    (st : Option (Option Int)) :
    ((scheduleTest labId t st).1 = 200 ↔
      t.lab_id = some labId ∧ t.status = "approved" ∧ ∃ n, st = some (some n)) ∧
    (∀ n : Int, st = some (some n) → t.lab_id = some labId → t.status = "approved" →
      scheduleTest labId t st =
        (200, { t with scheduled_time := some n, status := "scheduled" })) := by
  constructor
  · unfold scheduleTest
    split
    · rename_i h
      simp only [show ¬ ((404 : Nat) = 200) by decide, false_iff]
      rintro ⟨h1, -, -⟩
      exact h h1
    · rename_i h1
      rw [not_not] at h1
      split
      · rename_i h2
        simp only [show ¬ ((400 : Nat) = 200) by decide, false_iff]
        rintro ⟨-, h2', -⟩
        exact h2 h2'
      · rename_i h2
        rw [not_not] at h2
        obtain _ | ⟨_ | n⟩ := st
        · simp only [show ¬ ((400 : Nat) = 200) by decide, false_iff]
          rintro ⟨-, -, n, hn⟩
          exact Option.noConfusion hn
        · simp only [show ¬ ((400 : Nat) = 200) by decide, false_iff]
          rintro ⟨-, -, n, hn⟩
          simp at hn
        · simp only [true_iff]
          exact ⟨h1, h2, n, rfl⟩
  · intro n hn hlab hst
    subst hn
    unfold scheduleTest
    rw [if_neg (by simp [hlab]), if_neg (by simp [hst])]

/-- Witness for schedule_requires_only_parse on a concrete approved
test. -/
theorem schedule_requires_only_parse_witness :
    scheduleTest 1 exApprovedTest (some (some 42)) =
      (200, { exApprovedTest with scheduled_time := some 42, status := "scheduled" }) :=
  (schedule_requires_only_parse 1 exApprovedTest (some (some 42))).2 42 rfl rfl rfl

/-- Claim C10: the complete endpoint called by the assigned doctor on an
already completed Visit succeeds (200, no invalid-transition rejection)
and overwrites completed_at with the current time. -/
theorem complete_visit_overwrites_timestamp (now doctorId : Nat) (v : Visit)
    (hown : v.doctor_id = some doctorId) (hdone : v.status = "completed") :
    completeVisit now doctorId v =
      (200, { v with status := "completed", completed_at := some now }) := by
  unfold completeVisit
  rw [if_neg (by simp [hown])]

/-- Witness for complete_visit_overwrites_timestamp: a Visit completed at
instant 5, re-completed at instant 9, ends with completed_at 9. -/
theorem complete_visit_overwrites_timestamp_witness :
    completeVisit 9 1 exCompletedVisit =
      (200, { exCompletedVisit with status := "completed", completed_at := some 9 }) ∧
    exCompletedVisit.completed_at = some 5 :=
  ⟨complete_visit_overwrites_timestamp 9 1 exCompletedVisit rfl rfl, rfl⟩

/-- Claim C3: in every state reachable through the lab endpoints a
LabTest never holds a non-null lab_id while "requested" or "rejected",
and from "requested" no single endpoint request can move it to
"scheduled" or "completed" — approval must come first. -/
theorem labtest_lifecycle_invariant (t : LabTest) (h : LabReachable t) :
    ((t.status = "requested" ∨ t.status = "rejected") → t.lab_id = none) ∧
    (t.status = "requested" → ∀ t', LabStep t t' →
      t'.status ≠ "scheduled" ∧ t'.status ≠ "completed") := by
  have ht := labInv_reachable h
  refine ⟨ht, ?_⟩
  intro hreq t' hs
  have hnone : t.lab_id = none := ht (Or.inl hreq)
  cases hs with
  | approve labId t =>
    simp only [approveTest]
    rw [if_neg (by simp [hreq])]
    constructor
    · show ¬ ("approved" = "scheduled")
      decide
    · show ¬ ("approved" = "completed")
      decide
  | reject r t =>
    simp only [rejectTest]
    rw [if_neg (by simp [hreq])]
    constructor
    · show ¬ ("rejected" = "scheduled")
      decide
    · show ¬ ("rejected" = "completed")
      decide
  | schedule labId st t =>
    simp only [scheduleTest]
    rw [if_pos (by simp [hnone])]
    rw [hreq]
    exact ⟨by decide, by decide⟩
  | update labId d t =>
    simp only [updateTestResult]
    rw [if_pos (by simp [hnone])]
    rw [hreq]
    exact ⟨by decide, by decide⟩
  | complete labId t =>
    simp only [completeTest]
    rw [if_pos (by simp [hnone])]
    rw [hreq]
    exact ⟨by decide, by decide⟩

/-- Witness for labtest_lifecycle_invariant at a freshly created
request. -/
theorem labtest_lifecycle_invariant_witness :
    (mkLabTest exTestData).lab_id = none :=
  (labtest_lifecycle_invariant (mkLabTest exTestData) (LabReachable.init exTestData)).1
    (Or.inl rfl)

/-! ## Meeting lifecycle lemmas -/

lemma meetInv_init (p d : Nat) : MeetInv (mkAppointment p d) := by
  constructor
  · intro h
    exact absurd (show ("not_started" : String) = "ended" from h) (by decide)
  · intro _
    exact ⟨rfl, Or.inl rfl⟩

lemma meetInv_start (c : Nat) (r : String) (now : Nat) (a : Appointment)
    (ha : MeetInv a) : MeetInv (startMeeting c r now a).2 := by
  simp only [startMeeting]
  by_cases h1 : r = "doctor"
  · rw [if_neg (by simp [h1])]
    by_cases h2 : a.doctor_id = c
    · rw [if_neg (by simp [h2])]
      by_cases h3 : a.status = "cancelled" ∨ a.status = "completed"
      · rw [if_pos h3]
        exact ha
      · rw [if_neg h3]
        by_cases h4 : a.meeting_status = "live"
        · rw [if_pos h4]
          exact ha
        · rw [if_neg h4]
          have hnend : a.meeting_status ≠ "ended" := fun he => h3 (Or.inr (ha.1 he))
          constructor
          · intro h
            exact absurd (show ("live" : String) = "ended" from h) (by decide)
          · intro _
            exact ⟨(ha.2 hnend).1, Or.inr rfl⟩
    · rw [if_pos h2]
      exact ha
  · rw [if_pos h1]
    exact ha

lemma meetInv_end (c : Nat) (r : String) (now : Nat) (a : Appointment)
    (ha : MeetInv a) : MeetInv (endMeeting c r now a).2 := by
  simp only [endMeeting]
  by_cases h1 : r = "doctor"
  · rw [if_neg (by simp [h1])]
    by_cases h2 : a.doctor_id = c
    · rw [if_neg (by simp [h2])]
      by_cases h3 : a.meeting_status = "live"
      · rw [if_neg (by simp [h3])]
        constructor
        · intro _
          rfl
        · intro h
          exact absurd rfl h
      · rw [if_pos h3]
        exact ha
    · rw [if_pos h2]
      exact ha
  · rw [if_pos h1]
    exact ha

lemma meetInv_reachable {a : Appointment} (h : MeetReachable a) : MeetInv a := by
  induction h with
  | init p d => exact meetInv_init p d
  | step _ hs ih =>
    cases hs with
    | start c r now a => exact meetInv_start _ _ _ _ ih
    | finish c r now a => exact meetInv_end _ _ _ _ ih

/-- Claim C5: over reachable appointment states, meeting_status never
moves backward under a start-meeting or end-meeting request; end-meeting
never succeeds (and changes nothing) while the meeting is not live; and
any caller who is not the assigned doctor — wrong role or wrong id —
receives 403 from both endpoints with the appointment unchanged. -/
theorem meeting_status_monotone (a : Appointment) (h : MeetReachable a) :
    (∀ a', MeetStep a a' → meetRank a.meeting_status ≤ meetRank a'.meeting_status) ∧
    (a.meeting_status ≠ "live" → ∀ c r now,
      (endMeeting c r now a).1 ≠ 200 ∧ (endMeeting c r now a).2 = a) ∧
    (∀ c r now, ¬ (r = "doctor" ∧ c = a.doctor_id) →
      startMeeting c r now a = (403, a) ∧ endMeeting c r now a = (403, a)) := by
  have hinv := meetInv_reachable h
  refine ⟨?_, ?_, ?_⟩
  · intro a' hs
    cases hs with
    | start c r now a =>
      simp only [startMeeting]
      by_cases h1 : r = "doctor"
      · rw [if_neg (by simp [h1])]
        by_cases h2 : a.doctor_id = c
        · rw [if_neg (by simp [h2])]
          by_cases h3 : a.status = "cancelled" ∨ a.status = "completed"
          · rw [if_pos h3]
          · rw [if_neg h3]
            by_cases h4 : a.meeting_status = "live"
            · rw [if_pos h4]
            · rw [if_neg h4]
              have hnend : a.meeting_status ≠ "ended" := fun he => h3 (Or.inr (hinv.1 he))
              have hns : a.meeting_status = "not_started" :=
                ((hinv.2 hnend).2).resolve_right h4
              rw [hns]
              show meetRank "not_started" ≤ meetRank "live"
              decide
        · rw [if_pos h2]
      · rw [if_pos h1]
    | finish c r now a =>
      simp only [endMeeting]
      by_cases h1 : r = "doctor"
      · rw [if_neg (by simp [h1])]
        by_cases h2 : a.doctor_id = c
        · rw [if_neg (by simp [h2])]
          by_cases h3 : a.meeting_status = "live"
          · rw [if_neg (by simp [h3]), h3]
            show meetRank "live" ≤ meetRank "ended"
            decide
          · rw [if_pos h3]
        · rw [if_pos h2]
      · rw [if_pos h1]
  · intro hnl c r now
    simp only [endMeeting]
    by_cases h1 : r = "doctor"
    · rw [if_neg (by simp [h1])]
      by_cases h2 : a.doctor_id = c
      · rw [if_neg (by simp [h2]), if_pos hnl]
        exact ⟨by simp, rfl⟩
      · rw [if_pos h2]
        exact ⟨by simp, rfl⟩
    · rw [if_pos h1]
      exact ⟨by simp, rfl⟩
  · intro c r now hno
    by_cases h1 : r = "doctor"
    · have h2 : a.doctor_id ≠ c := fun he => hno ⟨h1, he.symm⟩
      constructor
      · simp only [startMeeting]
        rw [if_neg (by simp [h1]), if_pos h2]
      · simp only [endMeeting]
        rw [if_neg (by simp [h1]), if_pos h2]
    · constructor
      · simp only [startMeeting]
        rw [if_pos h1]
      · simp only [endMeeting]
        rw [if_pos h1]

/-- Witness for meeting_status_monotone: a different doctor (id 3) is
rejected with 403 on a fresh appointment assigned to doctor 2. -/
theorem meeting_status_monotone_witness :
    startMeeting 3 "doctor" 0 (mkAppointment 1 2) = (403, mkAppointment 1 2) ∧
    endMeeting 3 "doctor" 0 (mkAppointment 1 2) = (403, mkAppointment 1 2) :=
  (meeting_status_monotone (mkAppointment 1 2) (MeetReachable.init 1 2)).2.2 3 "doctor" 0
    (by decide)

lemma exLiveAppointment_reachable : MeetReachable exLiveAppointment :=
  MeetReachable.step (MeetReachable.init 1 2) (MeetStep.start 2 "doctor" 5 (mkAppointment 1 2))

/-- Claim C6: start-meeting by the assigned doctor is blocked (400,
unchanged) on a cancelled or completed appointment; is idempotent (200,
fully unchanged) when the meeting is already live; and on the first
transition from "not_started" sets meeting_status "live" and stamps
meeting_started_at. -/
theorem start_meeting_cases (a : Appointment) (h : MeetReachable a) (now : Nat) :
    ((a.status = "cancelled" ∨ a.status = "completed") →
      startMeeting a.doctor_id "doctor" now a = (400, a)) ∧
    (a.meeting_status = "live" →
      startMeeting a.doctor_id "doctor" now a = (200, a)) ∧
    (a.meeting_status = "not_started" →
      startMeeting a.doctor_id "doctor" now a =
        (200, { a with meeting_status := "live", meeting_started_at := some now })) := by
  have hinv := meetInv_reachable h
  refine ⟨?_, ?_, ?_⟩
  · intro h3
    simp only [startMeeting]
    rw [if_neg (by simp), if_neg (by simp), if_pos h3]
  · intro h4
    have hnend : a.meeting_status ≠ "ended" := by
      rw [h4]
      decide
    have hsch := (hinv.2 hnend).1
    simp only [startMeeting]
    rw [if_neg (by simp), if_neg (by simp), if_neg (by simp [hsch]), if_pos h4]
  · intro hns
    have hnend : a.meeting_status ≠ "ended" := by
      rw [hns]
      decide
    have hsch := (hinv.2 hnend).1
    have hnl : ¬ (a.meeting_status = "live") := by
      rw [hns]
      decide
    simp only [startMeeting]
    rw [if_neg (by simp), if_neg (by simp), if_neg (by simp [hsch]), if_neg hnl]

/-- Witness for start_meeting_cases: re-starting the already live
meeting of exLiveAppointment returns success without any change. -/
theorem start_meeting_cases_witness :
    startMeeting exLiveAppointment.doctor_id "doctor" 7 exLiveAppointment =
      (200, exLiveAppointment) :=
  (start_meeting_cases exLiveAppointment exLiveAppointment_reachable 7).2.1 rfl

/-! ## Signaling relay lemmas -/

lemma lookupRoom_mem {rooms : Rooms} {rid : String} {l : List Nat}
    (h : lookupRoom rooms rid = some l) : (rid, l) ∈ rooms := by
  unfold lookupRoom at h
  cases hf : List.find? (fun e => e.1 = rid) rooms with
  | none =>
    rw [hf] at h
    exact absurd h (by simp)
  | some e =>
    rw [hf] at h
    have hmem := List.mem_of_find?_eq_some hf
    have hpred := List.find?_some hf
    simp only [decide_eq_true_eq] at hpred
    injection h with h
    rw [← hpred, ← h]
    exact hmem

lemma relayInv_ensure {rooms : Rooms} {rid : String} (h : RelayInv rooms)
    (hrid : rid ≠ "") : RelayInv (ensureRoom rooms rid) := by
  unfold ensureRoom
  cases hl : lookupRoom rooms rid with
  | some l => exact h
  | none =>
    intro e he
    rw [List.mem_append] at he
    rcases he with he | he
    · exact h e he
    · rw [List.mem_singleton] at he
      subst he
      exact ⟨by simp, hrid⟩

lemma relayInv_setRoom {rooms : Rooms} {rid : String} {l : List Nat}
    (h : RelayInv rooms) (hlen : l.length ≤ 2) : RelayInv (setRoom rooms rid l) := by
  intro e he
  unfold setRoom at he
  rw [List.mem_map] at he
  obtain ⟨e', he', heq⟩ := he
  by_cases hk : e'.1 = rid
  · rw [if_pos hk] at heq
    subst heq
    exact ⟨hlen, (h e' he').2⟩
  · rw [if_neg hk] at heq
    subst heq
    exact h e' he'

lemma relayInv_join (sid : Nat) (rid : String) (rooms : Rooms) (h : RelayInv rooms) :
    RelayInv (joinRoom sid rid rooms).2 := by
  simp only [joinRoom]
  by_cases hrid : rid = ""
  · rw [if_pos hrid]
    exact h
  · rw [if_neg hrid]
    have h1 : RelayInv (ensureRoom rooms rid) := relayInv_ensure h hrid
    by_cases hfull : 2 ≤ ((lookupRoom (ensureRoom rooms rid) rid).getD []).length
    · rw [if_pos hfull]
      exact h1
    · rw [if_neg hfull]
      apply relayInv_setRoom h1
      rw [List.length_append]
      simp only [List.length_singleton]
      omega

lemma relayInv_leave (sid : Nat) (rid : String) (rooms : Rooms) (h : RelayInv rooms) :
    RelayInv (leaveRoom sid rid rooms) := by
  simp only [leaveRoom]
  by_cases hrid : rid = ""
  · rw [if_pos hrid]
    exact h
  · rw [if_neg hrid]
    cases hl : lookupRoom rooms rid with
    | none => exact h
    | some l =>
      show RelayInv (if sid ∈ l then
          if (l.erase sid).length = 0 then rooms.filter (fun e => ¬ (e.1 = rid))
          else setRoom rooms rid (l.erase sid)
        else rooms)
      by_cases hin : sid ∈ l
      · rw [if_pos hin]
        by_cases hz : (l.erase sid).length = 0
        · rw [if_pos hz]
          intro e he
          exact h e (List.mem_of_mem_filter he)
        · rw [if_neg hz]
          apply relayInv_setRoom h
          exact le_trans (List.erase_sublist sid l).length_le (h _ (lookupRoom_mem hl)).1
      · rw [if_neg hin]
        exact h

lemma relayInv_disconnect (sid : Nat) (rooms : Rooms) (h : RelayInv rooms) :
    RelayInv (disconnectPeer sid rooms) := by
  intro e he
  unfold disconnectPeer at he
  rw [List.mem_filterMap] at he
  obtain ⟨e', he', heq⟩ := he
  by_cases hin : sid ∈ e'.2
  · rw [if_pos hin] at heq
    by_cases hz : (e'.2.erase sid).length = 0
    · rw [if_pos hz] at heq
      cases heq
    · rw [if_neg hz] at heq
      injection heq with heq
      subst heq
      exact ⟨le_trans (List.erase_sublist sid e'.2).length_le (h e' he').1, (h e' he').2⟩
  · rw [if_neg hin] at heq
    injection heq with heq
    subst heq
    exact h e' he'

lemma relayInv_reachable {rooms : Rooms} (h : RelayReachable rooms) : RelayInv rooms := by
  induction h with
  | init => intro e he; cases he
  | step _ hs ih =>
    cases hs with
    | join sid rid r => exact relayInv_join _ _ _ ih
    | leave sid rid r => exact relayInv_leave _ _ _ ih
    | disconnect sid r => exact relayInv_disconnect _ _ ih

/-- Claim C9: in any reachable room map, a join on a room that already
holds two occupants answers with the error outcome and leaves the map
unchanged, and consequently no room ever holds more than two peers. -/
theorem room_capacity_two (rooms : Rooms) (h : RelayReachable rooms) :
    (∀ rid l sid, lookupRoom rooms rid = some l → l.length = 2 →
      joinRoom sid rid rooms = (JoinOutcome.errorFull, rooms)) ∧
    (∀ e ∈ rooms, e.2.length ≤ 2) := by
  have hinv := relayInv_reachable h
  refine ⟨?_, fun e he => (hinv e he).1⟩
  intro rid l sid hl hlen
  have hrid : rid ≠ "" := (hinv _ (lookupRoom_mem hl)).2
  have hens : ensureRoom rooms rid = rooms := by
    unfold ensureRoom
    rw [hl]
  simp only [joinRoom]
  rw [if_neg hrid, hens, hl]
  simp only [Option.getD_some]
  rw [if_pos (by rw [hlen])]

lemma exFullRooms_reachable : RelayReachable exFullRooms :=
  RelayReachable.step
    (RelayReachable.step RelayReachable.init (RelayStep.join 10 "r" []))
    (RelayStep.join 11 "r" (joinRoom 10 "r" []).2)

/-- Witness for room_capacity_two: a third peer joining the full room
"r" receives the error outcome and the map is unchanged. -/
theorem room_capacity_two_witness :
    joinRoom 12 "r" exFullRooms = (JoinOutcome.errorFull, exFullRooms) :=
  (room_capacity_two exFullRooms exFullRooms_reachable).1 "r" [10, 11] 12 rfl rfl

end HealthNova
